import Mathlib

/-!
Verification of the LDAP session lifecycle manager of the
`continue-local` VS Code extension.

A shallow embedding of the session-management code: the `LdapAuthProvider`
class (interactive login with
retry, periodic refresh sweep, 401-driven recovery, removal with
best-effort remote logout, secret-store persistence) and the `getUserToken`
accessor.

Network calls, interactive prompts and the system clock are modelled as
explicit parameters (oracles): a login/refresh response oracle describes
what the server answers, `now` is the value `Date.now()` returns during the
operation, and prompt inputs are supplied per attempt.  Fallible
operations return `Except`; the JavaScript `||` fallback on strings (empty
string is falsy) is modelled by `jsOr`.

The primary implementation is the provider variant with a client-side
`expiresAt` policy, three login attempts and a 401 handler
(`handleTokenExpired`); the older near-duplicate stub variant is embedded
separately in the `Stub` namespace where its behaviour diverges.
-/

set_option autoImplicit false

namespace LdapAuth

/-- Fixed client-side TTL for access tokens, in minutes. -/
def ACCESS_TOKEN_TTL_MINUTES : Nat := 10

/-- The `account` object of a session: display identity for the host UI. -/
structure Account where
  id : String
  label : String
  deriving Repr, DecidableEq

/-- The persisted session record, `ContinueAuthenticationSession`. -/
structure ContinueAuthenticationSession where
  id : String
  accessToken : String
  account : Account
  scopes : List String
  refreshToken : String
  expiresAt : Nat
  loginNeeded : Bool
  deriving Repr, DecidableEq

/-- The token envelope of an `LdapAuthResponse`; `refreshToken?` is optional. -/
structure LdapTokens where
  accessToken : String
  refreshToken : Option String
  deriving Repr, DecidableEq

/-- The `user` object of an `LdapAuthResponse`. -/
structure LdapUser where
  username : String
  email : String
  displayName : String
  groups : List String
  deriving Repr, DecidableEq

/-- A successful JSON body returned by `/login` or `/refresh`. -/
structure LdapAuthResponse where
  success : Bool
  user : LdapUser
  tokens : LdapTokens
  deriving Repr, DecidableEq

/-- JavaScript `a || b` on strings: the empty string is falsy. -/
def jsOr (a b : String) : String :=
  if a = "" then b else a

/-- What sits in secret storage under the `"ldap.sessions"` key:
either data that `JSON.parse` accepts (a serialized session list) or
data it rejects. -/
inductive StoreData where
  | parsable (sessions : List ContinueAuthenticationSession)
  | corrupt
  deriving Repr, DecidableEq

/-- Embeds `getSessions`: returns `[]` when no data is stored; otherwise
`JSON.parse(data)`, which throws (propagated to the caller) when the
stored data cannot be parsed. -/
def getSessions (storage : Option StoreData) :
    Except Unit (List ContinueAuthenticationSession) :=
  match storage with
  | none => .ok []
  | some (.parsable sessions) => .ok sessions
  | some .corrupt => .error ()

/-- Embeds `storeSessions`: serializes the full list and overwrites the store. -/
def storeSessions (sessions : List ContinueAuthenticationSession) :
    Option StoreData :=
  some (.parsable sessions)

/-- The token triple `_refreshSession` resolves with on success. -/
structure RefreshedTokens where
  accessToken : String
  refreshToken : String
  expiresAt : Nat
  deriving Repr, DecidableEq

/-- Embeds `_refreshSession(refreshToken)`: `resp` is the server's answer to the
`/refresh` call (`none` = non-ok response or transport failure, both of
which throw).  On success the new refresh token falls back to the old one
when the server omits one, and `expiresAt` is `Date.now()` plus the fixed
TTL. -/
def _refreshSession (now : Nat) (resp : Option LdapTokens)
    (refreshToken : String) : Option RefreshedTokens :=
  match resp with
  | none => none
  | some tokens =>
    some { accessToken := tokens.accessToken
           refreshToken := jsOr (tokens.refreshToken.getD "") refreshToken
           expiresAt := now + ACCESS_TOKEN_TTL_MINUTES * 60 * 1000 }

/-- The session produced by spreading a stored session with the tokens
returned by a successful refresh. -/
def applyRefresh (session : ContinueAuthenticationSession)
    (refreshed : RefreshedTokens) : ContinueAuthenticationSession :=
  { session with
    accessToken := refreshed.accessToken
    refreshToken := refreshed.refreshToken
    expiresAt := refreshed.expiresAt }

/-- The loop body of `refreshSessions`: walks the stored list, keeps
records whose `expiresAt` is still in the future, attempts a refresh for
the rest, and keeps the original record when the refresh throws.  Returns
the rebuilt list together with the refresh tokens submitted to the
server, in call order. -/
def processSessions (now : Nat) (refreshResp : String → Option LdapTokens) :
    List ContinueAuthenticationSession →
      List ContinueAuthenticationSession × List String
  | [] => ([], [])
  | session :: rest =>
    if session.expiresAt > now then
      let r := processSessions now refreshResp rest
      (session :: r.1, r.2)
    else
      let updated :=
        match _refreshSession now (refreshResp session.refreshToken)
            session.refreshToken with
        | some refreshed => applyRefresh session refreshed
        | none => session
      let r := processSessions now refreshResp rest
      (updated :: r.1, session.refreshToken :: r.2)

/-- The observable outcome of one `refreshSessions` invocation. -/
structure SweepResult where
  _isRefreshing : Bool
  storage : Option StoreData
  refreshCalls : List String
  loadedStore : Bool
  threw : Bool
  deriving Repr, DecidableEq

/-- Embeds `refreshSessions`, the periodic sweep.  Returns immediately when the
reentrancy flag is set; otherwise sets the flag, loads the store (a parse
failure propagates, with the flag cleared by `finally`), processes every
record, persists the rebuilt list once when it is non-empty, and clears
the flag. -/
def refreshSessions (isRefreshing : Bool) (storage : Option StoreData)
    (now : Nat) (refreshResp : String → Option LdapTokens) : SweepResult :=
  if isRefreshing then
    { _isRefreshing := isRefreshing, storage := storage, refreshCalls := []
      loadedStore := false, threw := false }
  else
    match getSessions storage with
    | .error _ =>
      { _isRefreshing := false, storage := storage, refreshCalls := []
        loadedStore := true, threw := true }
    | .ok sessions =>
      let r := processSessions now refreshResp sessions
      { _isRefreshing := false
        storage := if r.1.length > 0 then storeSessions r.1 else storage
        refreshCalls := r.2
        loadedStore := true
        threw := false }

/-- An `AuthenticationProviderAuthenticationSessionsChangeEvent` fired on
the session-change emitter. -/
structure SessionChangeEvent where
  added : List ContinueAuthenticationSession
  removed : List ContinueAuthenticationSession
  changed : List ContinueAuthenticationSession
  deriving Repr, DecidableEq

/-- The observable outcome of `handleTokenExpired`. -/
structure TokenExpiredResult where
  returned : Bool
  storage : Option StoreData
  events : List SessionChangeEvent
  refreshCalls : List String
  deriving Repr, DecidableEq

/-- Embeds `handleTokenExpired`, the explicit 401-recovery path.  Empty store ⇒
`false` with no server call; otherwise refresh the first session: on
success persist `[refreshedSession]`, fire a `changed` event and return
`true`; on refresh failure persist `[]`, fire a `removed` event for the
original session and return `false`.  Any other error (e.g. a corrupt
store) is caught and yields `false`. -/
def handleTokenExpired (storage : Option StoreData) (now : Nat)
    (refreshResp : String → Option LdapTokens) : TokenExpiredResult :=
  match getSessions storage with
  | .error _ =>
    { returned := false, storage := storage, events := [], refreshCalls := [] }
  | .ok [] =>
    { returned := false, storage := storage, events := [], refreshCalls := [] }
  | .ok (session :: _) =>
    match _refreshSession now (refreshResp session.refreshToken)
        session.refreshToken with
    | some refreshed =>
      let refreshedSession := applyRefresh session refreshed
      { returned := true
        storage := storeSessions [refreshedSession]
        events := [{ added := [], removed := [], changed := [refreshedSession] }]
        refreshCalls := [session.refreshToken] }
    | none =>
      { returned := false
        storage := storeSessions []
        events := [{ added := [], removed := [session], changed := [] }]
        refreshCalls := [session.refreshToken] }

/-- One observable action performed by `removeSession`, in program order:
a store write, a `/logout` call, or a fired change event. -/
inductive RemoveAction where
  | storeList (sessions : List ContinueAuthenticationSession)
  | logoutCall (refreshToken : String)
  | fireRemoved (session : ContinueAuthenticationSession)
  deriving Repr, DecidableEq

/-- The observable outcome of `removeSession`. -/
structure RemoveResult where
  storage : Option StoreData
  actions : List RemoveAction
  threw : Bool
  deriving Repr, DecidableEq

/-- Embeds `removeSession(sessionId)`: load the list (a parse failure
propagates); find the first record with that id — when absent return at
once.  Otherwise splice it out, persist the remaining list, attempt a
remote logout when the record's `refreshToken` is non-empty (any logout
failure — `logoutOk = false` — is caught and only logged), and fire a
`removed` event carrying the record. -/
def removeSession (storage : Option StoreData) (_logoutOk : Bool)
    (sessionId : String) : RemoveResult :=
  match getSessions storage with
  | .error _ => { storage := storage, actions := [], threw := true }
  | .ok sessions =>
    match sessions.find? (fun s => s.id == sessionId) with
    | none => { storage := storage, actions := [], threw := false }
    | some session =>
      let remaining := sessions.eraseP (fun s => s.id == sessionId)
      { storage := storeSessions remaining
        actions :=
          RemoveAction.storeList remaining ::
            (if session.refreshToken = "" then []
             else [RemoveAction.logoutCall session.refreshToken]) ++
            [RemoveAction.fireRemoved session]
        threw := false }

/-- The server's answer to one `/login` POST: an ok response with a parsed
body, a non-ok response optionally carrying `{detail}`, or anything thrown
inside the `try` (transport error, timeout, unparsable ok-body). -/
inductive LoginResponse where
  | ok (data : LdapAuthResponse)
  | clientError (detail : Option String)
  | networkFailure
  deriving Repr, DecidableEq

/-- The errors `createSession` can throw. -/
inductive CreateSessionError where
  | missingUsername
  | missingPassword
  | loginFailed (message : String)
  | networkError
  | maxAttemptsExceeded
  deriving Repr, DecidableEq

/-- The observable outcome of `createSession`. -/
structure CreateSessionResult where
  result : Except CreateSessionError ContinueAuthenticationSession
  serverCalls : Nat
  storage : Option StoreData
  events : List SessionChangeEvent
  deriving Repr

/-- The `maxAttempts` bound of the `createSession` login loop. -/
def maxAttempts : Nat := 3

/-- The session record `createSession` builds from a successful login
response: `id` is the entered username, the account label falls back to
the username when `displayName` is empty, the refresh token falls back to
`""` when the server omits one, and `expiresAt` is `Date.now()` plus the
fixed TTL. -/
def mkLoginSession (now : Nat) (username : String)
    (data : LdapAuthResponse) : ContinueAuthenticationSession :=
  { id := username
    account := { id := username, label := jsOr data.user.displayName username }
    scopes := []
    accessToken := data.tokens.accessToken
    refreshToken := jsOr (data.tokens.refreshToken.getD "") ""
    expiresAt := now + ACCESS_TOKEN_TTL_MINUTES * 60 * 1000
    loginNeeded := false }

/-- The `while attempts < maxAttempts` loop of `createSession`.
`usernameInput`/`passwordInput` give the prompt results of each attempt
(`none` = empty/cancelled input, which throws at once), `loginResp` the
server's answer to each attempt's `/login` call.  A non-ok response on a
non-final attempt shows a warning and loops; on the final attempt the
error message is thrown (and rethrown by the surrounding `catch`).  A
thrown fetch error loops on a non-final attempt and is rethrown on the
final one.  Success stores `[session]` and returns it; no event is
fired. -/
def createSessionGo (now : Nat)
    (usernameInput passwordInput : Nat → Option String)
    (loginResp : Nat → LoginResponse) (storage : Option StoreData)
    (attempts serverCalls : Nat) : CreateSessionResult :=
  if _h : attempts < maxAttempts then
    match usernameInput attempts with
    | none =>
      { result := .error .missingUsername, serverCalls := serverCalls
        storage := storage, events := [] }
    | some username =>
      match passwordInput attempts with
      | none =>
        { result := .error .missingPassword, serverCalls := serverCalls
          storage := storage, events := [] }
      | some _ =>
        match loginResp attempts with
        | .ok data =>
          let session := mkLoginSession now username data
          { result := .ok session, serverCalls := serverCalls + 1
            storage := storeSessions [session], events := [] }
        | .clientError detail =>
          if attempts < maxAttempts - 1 then
            createSessionGo now usernameInput passwordInput loginResp storage
              (attempts + 1) (serverCalls + 1)
          else
            { result := .error (.loginFailed (jsOr (detail.getD "")
                "Invalid credentials"))
              serverCalls := serverCalls + 1, storage := storage, events := [] }
        | .networkFailure =>
          if attempts < maxAttempts - 1 then
            createSessionGo now usernameInput passwordInput loginResp storage
              (attempts + 1) (serverCalls + 1)
          else
            { result := .error .networkError, serverCalls := serverCalls + 1
              storage := storage, events := [] }
  else
    { result := .error .maxAttemptsExceeded, serverCalls := serverCalls
      storage := storage, events := [] }
termination_by maxAttempts - attempts
decreasing_by all_goals omega

/-- Embeds `createSession(scopes)`: the interactive login loop started
with `attempts = 0`. -/
def createSession (now : Nat)
    (usernameInput passwordInput : Nat → Option String)
    (loginResp : Nat → LoginResponse) (storage : Option StoreData) :
    CreateSessionResult :=
  createSessionGo now usernameInput passwordInput loginResp storage 0 0

/-- The `createIfNone` option `getUserToken` passes to
`authentication.getSession`. -/
def getUserTokenCreateIfNone : Bool := false

/-- Embeds `getUserToken()`: the access token of the existing `ldap` session when
one exists (requested with `createIfNone: false`, so never interactive);
otherwise the configured `userToken` setting when truthy (non-null and
non-empty); otherwise throws. -/
def getUserToken (session : Option ContinueAuthenticationSession)
    (userTokenSetting : Option String) : Except String String :=
  match session with
  | some s => .ok s.accessToken
  | none =>
    match userTokenSetting with
    | some userToken =>
      if userToken = "" then .error "No authentication token found"
      else .ok userToken
    | none => .error "No authentication token found"

/-- The effect of one `refreshSessions` loop iteration on one stored
record (specification helper for `processSessions`). -/
def processOne (now : Nat) (refreshResp : String → Option LdapTokens)
    (session : ContinueAuthenticationSession) :
    ContinueAuthenticationSession :=
  if session.expiresAt > now then session
  else
    match _refreshSession now (refreshResp session.refreshToken)
        session.refreshToken with
    | some refreshed => applyRefresh session refreshed
    | none => session

/-- Whether a login response is one of the retryable failures (a non-ok
response or a thrown fetch error). -/
def retryableFailure : LoginResponse → Bool
  | .ok _ => false
  | .clientError _ => true
  | .networkFailure => true

/-- The error `createSession` throws when its final attempt meets the
given failing response. -/
def failureError : LoginResponse → CreateSessionError
  | .clientError detail => .loginFailed (jsOr (detail.getD "") "Invalid credentials")
  | _ => .networkError

/-- A concrete stored session used by the witnesses: its `expiresAt` of
`100` is expired at time `200` and still in the future at time `50`. -/
def aliceSession : ContinueAuthenticationSession :=
  { id := "alice", accessToken := "A1"
    account := { id := "alice", label := "Alice" }
    scopes := [], refreshToken := "RT1", expiresAt := 100, loginNeeded := false }

/-- A concrete successful login body used by the witnesses; it omits the
optional refresh token. -/
def sampleResponse : LdapAuthResponse :=
  { success := true
    user := { username := "bob", email := "bob", displayName := "Bob B"
              groups := [] }
    tokens := { accessToken := "T1", refreshToken := none } }

namespace Stub

/-- The token envelope of the stub variant's `LdapAuthResponse`: it also
carries a server-provided `expiresIn` (seconds). -/
structure StubTokens where
  accessToken : String
  refreshToken : Option String
  expiresIn : Nat
  deriving Repr, DecidableEq

/-- The persisted session record of the older near-duplicate provider in
`extensions/vscode/src/stubs/LdapAuthProvider.ts`: it stores a relative
`expiresInMs` taken from the server instead of an absolute client-side
`expiresAt`. -/
structure StubSession where
  id : String
  accessToken : String
  account : Account
  scopes : List String
  refreshToken : String
  expiresInMs : Nat
  loginNeeded : Bool
  deriving Repr, DecidableEq

/-- Embeds the stub variant's sweep loop body: every stored session is
sent to refresh regardless of expiry (there is no expiry check), and a
session whose refresh fails is dropped from the rebuilt list instead of
being kept. -/
def processSessions (refreshResp : String → Option StubTokens) :
    List StubSession → List StubSession × List String
  | [] => ([], [])
  | session :: rest =>
    let r := processSessions refreshResp rest
    match refreshResp session.refreshToken with
    | some tokens =>
      ({ session with
          accessToken := tokens.accessToken
          refreshToken := jsOr (tokens.refreshToken.getD "") session.refreshToken
          expiresInMs := tokens.expiresIn * 1000 } :: r.1,
        session.refreshToken :: r.2)
    | none => (r.1, session.refreshToken :: r.2)

/-- Embeds the stub variant's `removeSession` on a loaded session list:
`findIndex` may return `-1`, in which case `session` is `undefined` but
`splice(-1, 1)` still removes the *last* stored record, and the
`if (session)` guard then skips the event.  Returns the list that is
persisted and the record carried by the fired `removed` event, if any. -/
def removeSession (sessions : List StubSession) (sessionId : String) :
    List StubSession × Option StubSession :=
  match sessions.findIdx? (fun s => s.id == sessionId) with
  | some idx => (sessions.eraseIdx idx, sessions[idx]?)
  | none => (sessions.dropLast, none)

end Stub

/-! Theorems.  Helper lemmas about the sweep loop come first; the numbered
claim theorems and their witnesses follow. -/

/-- The sweep loop processes each stored record independently: it maps
`processOne` over the list and submits exactly the refresh tokens of the
records whose `expiresAt` is not in the future. -/
theorem processSessions_spec (now : Nat) (f : String → Option LdapTokens)
    (l : List ContinueAuthenticationSession) :
    processSessions now f l =
      (l.map (processOne now f),
        (l.filter (fun s => !decide (s.expiresAt > now))).map
          (fun s => s.refreshToken)) := by
  induction l with
  | nil => rfl
  | cons s rest ih =>
    by_cases h : s.expiresAt > now <;>
      simp [processSessions, processOne, h, ih]

/-- A sweep over a non-empty parsable store persists the processed list. -/
theorem refreshSessions_storage_eq (now : Nat)
    (f : String → Option LdapTokens)
    (sessions : List ContinueAuthenticationSession) (hnil : sessions ≠ []) :
    (refreshSessions false (some (.parsable sessions)) now f).storage =
      some (.parsable (sessions.map (processOne now f))) := by
  have hlen : 0 < (processSessions now f sessions).1.length := by
    rw [processSessions_spec]
    simpa using List.length_pos.mpr hnil
  simp [refreshSessions, getSessions, hlen, storeSessions,
    processSessions_spec]
  intro h
  exact absurd h hnil

/-- A sweep over a parsable store issues exactly the refresh calls of the
expired records. -/
theorem refreshSessions_calls_eq (now : Nat)
    (f : String → Option LdapTokens)
    (sessions : List ContinueAuthenticationSession) :
    (refreshSessions false (some (.parsable sessions)) now f).refreshCalls =
      (sessions.filter (fun s => !decide (s.expiresAt > now))).map
        (fun s => s.refreshToken) := by
  simp [refreshSessions, getSessions, processSessions_spec]

/-- C1: if the refresh call for a stored session fails during a
`refreshSessions` sweep, that session's original (now-expired) record is
still present, unchanged and at its original position in the persisted
store after the sweep, and no record is dropped (the stored list keeps
its length); a failed-refresh record is never dropped by the sweep. -/
theorem refreshSessions_keeps_failed_record
    (storage : Option StoreData) (now : Nat)
    (refreshResp : String → Option LdapTokens)
    (sessions : List ContinueAuthenticationSession)
    (i : Nat) (s : ContinueAuthenticationSession)
    (hstore : storage = some (.parsable sessions))
    (hs : sessions[i]? = some s)
    (hexpired : s.expiresAt ≤ now)
    (hfail : refreshResp s.refreshToken = none) :
    ∃ out, (refreshSessions false storage now refreshResp).storage
        = some (.parsable out) ∧
      out.length = sessions.length ∧ out[i]? = some s := by
  subst hstore
  have hnil : sessions ≠ [] := by
    intro h
    subst h
    simp at hs
  refine ⟨sessions.map (processOne now refreshResp),
    refreshSessions_storage_eq now refreshResp sessions hnil, by simp, ?_⟩
  rw [List.getElem?_map, hs]
  have hnotlt : ¬ s.expiresAt > now := not_lt.mpr hexpired
  simp [processOne, hnotlt, _refreshSession, hfail]

/-- C1 witness: a store holding one expired record whose refresh fails is
identical after the sweep. -/
theorem refreshSessions_keeps_failed_record_witness :
    ∃ out, (refreshSessions false (some (.parsable [aliceSession])) 200
        (fun _ => none)).storage = some (.parsable out) ∧
      out.length = [aliceSession].length ∧ out[0]? = some aliceSession :=
  refreshSessions_keeps_failed_record _ 200 (fun _ => none) [aliceSession] 0
    aliceSession rfl rfl (by decide) rfl

/-- C2: `refreshSessions` is guarded by the reentrancy flag.  An
invocation issued while a sweep is in progress (flag set) returns
immediately: it does not load the store, issues no refresh calls and
changes nothing, so two overlapping invocations issue exactly the refresh
calls of the single underlying sweep.  An invocation that enters the
sweep always exits with the flag cleared — on the normal path and on the
throwing path alike — and does load the store, so a later non-overlapping
invocation runs normally. -/
theorem refreshSessions_reentrancy_guard
    (storage : Option StoreData) (now now2 : Nat)
    (f f2 : String → Option LdapTokens) :
    refreshSessions true storage now2 f2 =
      { _isRefreshing := true, storage := storage, refreshCalls := []
        loadedStore := false, threw := false } ∧
    (refreshSessions false storage now f)._isRefreshing = false ∧
    (refreshSessions false storage now f).loadedStore = true ∧
    (refreshSessions true storage now2 f2).refreshCalls ++
        (refreshSessions false storage now f).refreshCalls =
      (refreshSessions false storage now f).refreshCalls := by
  refine ⟨rfl, ?_, ?_, ?_⟩ <;>
    cases h : getSessions storage <;> simp [refreshSessions, h]

/-- C4: during a sweep, the refresh tokens submitted to the refresh
endpoint are exactly those of the stored records whose `expiresAt` has
passed, and every record whose `expiresAt` is still in the future at
sweep time is kept as-is at its position in the persisted store. -/
theorem refreshSessions_skips_unexpired
    (storage : Option StoreData) (now : Nat)
    (refreshResp : String → Option LdapTokens)
    (sessions : List ContinueAuthenticationSession)
    (hstore : storage = some (.parsable sessions)) :
    (refreshSessions false storage now refreshResp).refreshCalls =
      (sessions.filter (fun s => !decide (s.expiresAt > now))).map
        (fun s => s.refreshToken) ∧
    ∀ (i : Nat) (s : ContinueAuthenticationSession),
      sessions[i]? = some s → s.expiresAt > now →
      ∃ out, (refreshSessions false storage now refreshResp).storage
          = some (.parsable out) ∧
        out.length = sessions.length ∧ out[i]? = some s := by
  subst hstore
  refine ⟨refreshSessions_calls_eq now refreshResp sessions, ?_⟩
  intro i s hs hfresh
  have hnil : sessions ≠ [] := by
    intro h
    subst h
    simp at hs
  refine ⟨sessions.map (processOne now refreshResp),
    refreshSessions_storage_eq now refreshResp sessions hnil, by simp, ?_⟩
  rw [List.getElem?_map, hs]
  simp [processOne, hfresh]

/-- C4 witness: a store holding one record that is still fresh at sweep
time yields no refresh call and an unchanged record. -/
theorem refreshSessions_skips_unexpired_witness :
    (refreshSessions false (some (.parsable [aliceSession])) 50
        (fun _ => none)).refreshCalls = [] ∧
    ∃ out, (refreshSessions false (some (.parsable [aliceSession])) 50
        (fun _ => none)).storage = some (.parsable out) ∧
      out.length = [aliceSession].length ∧ out[0]? = some aliceSession := by
  have h := refreshSessions_skips_unexpired (some (.parsable [aliceSession]))
    50 (fun _ => none) [aliceSession] rfl
  exact ⟨h.1.trans (by decide), h.2 0 aliceSession rfl (by decide)⟩

/-- C3: `handleTokenExpired` (the `handleAuthRejected` recovery path)
returns `false` with no server call when the stored list is empty; when a
refresh of the first stored session succeeds it persists the refreshed
record as the store's sole content, fires exactly one `changed` event and
returns `true`; when the refresh fails it clears the store to the empty
list, fires a `removed` event carrying the session that failed to refresh
and returns `false`. -/
theorem handleTokenExpired_contract (storage : Option StoreData) (now : Nat)
    (f : String → Option LdapTokens) :
    (getSessions storage = .ok [] →
      handleTokenExpired storage now f =
        { returned := false, storage := storage, events := []
          refreshCalls := [] }) ∧
    (∀ (s : ContinueAuthenticationSession)
        (rest : List ContinueAuthenticationSession),
      getSessions storage = .ok (s :: rest) →
      (∀ tokens, f s.refreshToken = some tokens →
        ∃ s', handleTokenExpired storage now f =
          { returned := true, storage := some (.parsable [s'])
            events := [{ added := [], removed := [], changed := [s'] }]
            refreshCalls := [s.refreshToken] }) ∧
      (f s.refreshToken = none →
        handleTokenExpired storage now f =
          { returned := false, storage := some (.parsable [])
            events := [{ added := [], removed := [s], changed := [] }]
            refreshCalls := [s.refreshToken] })) := by
  refine ⟨fun h => by simp [handleTokenExpired, h], ?_⟩
  intro s rest h
  constructor
  · intro tokens htok
    refine ⟨applyRefresh s
      { accessToken := tokens.accessToken
        refreshToken := jsOr (tokens.refreshToken.getD "") s.refreshToken
        expiresAt := now + ACCESS_TOKEN_TTL_MINUTES * 60 * 1000 }, ?_⟩
    simp [handleTokenExpired, h, _refreshSession, htok, storeSessions]
  · intro htok
    simp [handleTokenExpired, h, _refreshSession, htok, storeSessions]

/-- C3 witness: with one stored session and a failing refresh, the store
is cleared and a `removed` event fires for that session. -/
theorem handleTokenExpired_contract_witness :
    handleTokenExpired (some (.parsable [aliceSession])) 200 (fun _ => none) =
      { returned := false, storage := some (.parsable [])
        events := [{ added := [], removed := [aliceSession], changed := [] }]
        refreshCalls := [aliceSession.refreshToken] } :=
  ((handleTokenExpired_contract (some (.parsable [aliceSession])) 200
      (fun _ => none)).2 aliceSession [] rfl).2 rfl

/-- C7: `removeSession` on an id that is not in the stored list is an
idempotent no-op: the store is unchanged, no logout call is made and no
event is fired. -/
theorem removeSession_unknown_noop (storage : Option StoreData)
    (logoutOk : Bool) (sessionId : String)
    (sessions : List ContinueAuthenticationSession)
    (hload : getSessions storage = .ok sessions)
    (habsent : ∀ s ∈ sessions, s.id ≠ sessionId) :
    removeSession storage logoutOk sessionId =
      { storage := storage, actions := [], threw := false } := by
  have hfind : sessions.find? (fun s => s.id == sessionId) = none := by
    rw [List.find?_eq_none]
    intro s hsmem
    simpa using habsent s hsmem
  simp [removeSession, hload, hfind]

/-- C7 witness: removing an unknown id from a one-record store changes
nothing and performs no action. -/
theorem removeSession_unknown_noop_witness :
    removeSession (some (.parsable [aliceSession])) true "bob" =
      { storage := some (.parsable [aliceSession]), actions := []
        threw := false } :=
  removeSession_unknown_noop (some (.parsable [aliceSession])) true "bob"
    [aliceSession] rfl (by decide)

/-- C8: `removeSession` on an id present in the store persists the list
with that record spliced out, and does so as its first action — before
any logout attempt; a logout call (with the record's refresh token) is
made exactly when the record's `refreshToken` is non-empty; the `removed`
event carrying the record is fired whether or not the remote logout
succeeds (`logoutOk` is irrelevant to the outcome), and the logout
failure is never propagated. -/
theorem removeSession_known_removes (storage : Option StoreData)
    (logoutOk : Bool) (sessionId : String)
    (sessions : List ContinueAuthenticationSession)
    (session : ContinueAuthenticationSession)
    (hload : getSessions storage = .ok sessions)
    (hfind : sessions.find? (fun s => s.id == sessionId) = some session) :
    (removeSession storage logoutOk sessionId).storage =
      some (.parsable (sessions.eraseP (fun s => s.id == sessionId))) ∧
    (removeSession storage logoutOk sessionId).actions.head? =
      some (.storeList (sessions.eraseP (fun s => s.id == sessionId))) ∧
    RemoveAction.fireRemoved session ∈
      (removeSession storage logoutOk sessionId).actions ∧
    (RemoveAction.logoutCall session.refreshToken ∈
        (removeSession storage logoutOk sessionId).actions ↔
      session.refreshToken ≠ "") ∧
    (removeSession storage logoutOk sessionId).threw = false ∧
    removeSession storage true sessionId =
      removeSession storage false sessionId := by
  simp only [removeSession, hload, hfind]
  by_cases hrt : session.refreshToken = "" <;>
    simp [hrt, storeSessions]

/-- C8 witness: removing the only record (non-empty refresh token) with a
failing remote logout still persists the removal first and fires the
`removed` event. -/
theorem removeSession_known_removes_witness :
    (removeSession (some (.parsable [aliceSession])) false "alice").storage =
      some (.parsable []) ∧
    RemoveAction.fireRemoved aliceSession ∈
      (removeSession (some (.parsable [aliceSession])) false "alice").actions ∧
    RemoveAction.logoutCall aliceSession.refreshToken ∈
      (removeSession (some (.parsable [aliceSession])) false "alice").actions := by
  have h := removeSession_known_removes (some (.parsable [aliceSession]))
    false "alice" [aliceSession] aliceSession rfl (by decide)
  exact ⟨h.1.trans (by decide), h.2.2.1, h.2.2.2.1.mpr (by decide)⟩

/-- A retryable failure on a non-final attempt with both prompts answered
makes the login loop continue with the attempt and call counters
incremented. -/
theorem createSessionGo_retry_step (now : Nat)
    (u p : Nat → Option String) (resp : Nat → LoginResponse)
    (st : Option StoreData) (attempts calls : Nat)
    (ha : attempts < maxAttempts - 1)
    (hu : (u attempts).isSome) (hp : (p attempts).isSome)
    (hf : retryableFailure (resp attempts) = true) :
    createSessionGo now u p resp st attempts calls =
      createSessionGo now u p resp st (attempts + 1) (calls + 1) := by
  obtain ⟨a, ha'⟩ := Option.isSome_iff_exists.mp hu
  obtain ⟨b, hb'⟩ := Option.isSome_iff_exists.mp hp
  have h3 : attempts < maxAttempts := by
    have : maxAttempts - 1 ≤ maxAttempts := Nat.sub_le _ _
    omega
  cases hr : resp attempts with
  | ok d => simp [retryableFailure, hr] at hf
  | clientError d =>
    rw [createSessionGo.eq_def]
    simp [h3, ha', hb', hr, ha]
  | networkFailure =>
    rw [createSessionGo.eq_def]
    simp [h3, ha', hb', hr, ha]

/-- A retryable failure on the final attempt with both prompts answered
throws that attempt's own error after one more server call. -/
theorem createSessionGo_final_fail (now : Nat)
    (u p : Nat → Option String) (resp : Nat → LoginResponse)
    (st : Option StoreData) (calls : Nat)
    (hu : (u (maxAttempts - 1)).isSome) (hp : (p (maxAttempts - 1)).isSome)
    (hf : retryableFailure (resp (maxAttempts - 1)) = true) :
    createSessionGo now u p resp st (maxAttempts - 1) calls =
      { result := .error (failureError (resp (maxAttempts - 1)))
        serverCalls := calls + 1, storage := st, events := [] } := by
  obtain ⟨a, ha'⟩ := Option.isSome_iff_exists.mp hu
  obtain ⟨b, hb'⟩ := Option.isSome_iff_exists.mp hp
  have h3 : maxAttempts - 1 < maxAttempts := by
    simp [maxAttempts]
  have hnot : ¬ maxAttempts - 1 < maxAttempts - 1 := Nat.lt_irrefl _
  cases hr : resp (maxAttempts - 1) with
  | ok d => simp [retryableFailure, hr] at hf
  | clientError d =>
    rw [createSessionGo.eq_def]
    simp [h3, ha', hb', hr, hnot, failureError]
  | networkFailure =>
    rw [createSessionGo.eq_def]
    simp [h3, ha', hb', hr, hnot, failureError]

/-- A successful login response on an attempt below the cap returns the
built session after one more server call, storing it as the sole entry
and firing no event. -/
theorem createSessionGo_ok_step (now : Nat)
    (u p : Nat → Option String) (resp : Nat → LoginResponse)
    (st : Option StoreData) (attempts calls : Nat)
    (username pw : String) (data : LdapAuthResponse)
    (h3 : attempts < maxAttempts)
    (hu : u attempts = some username) (hp : p attempts = some pw)
    (hr : resp attempts = .ok data) :
    createSessionGo now u p resp st attempts calls =
      { result := .ok (mkLoginSession now username data)
        serverCalls := calls + 1
        storage := some (.parsable [mkLoginSession now username data])
        events := [] } := by
  rw [createSessionGo.eq_def]
  simp [h3, hu, hp, hr, storeSessions]

/-- Every successful run of the login loop built its session from the
successful attempt's entered username and server response, stored it as
the sole entry, fired no event, and stamped it with the fixed TTL. -/
theorem createSessionGo_ok_shape (now : Nat)
    (u p : Nat → Option String) (resp : Nat → LoginResponse)
    (st : Option StoreData) :
    ∀ (k attempts calls : Nat) (s : ContinueAuthenticationSession),
      maxAttempts - attempts ≤ k →
      (createSessionGo now u p resp st attempts calls).result = .ok s →
      ((∃ n, createSessionGo now u p resp st attempts calls =
          { result := .ok s, serverCalls := n
            storage := some (.parsable [s]), events := [] }) ∧
       ∃ i data, attempts ≤ i ∧ i < maxAttempts ∧ resp i = .ok data ∧
         u i = some s.id ∧ s = mkLoginSession now s.id data) := by
  intro k
  induction k with
  | zero =>
    intro attempts calls s hk hok
    rw [createSessionGo.eq_def] at hok
    have hge : ¬ attempts < maxAttempts := by omega
    simp [hge] at hok
  | succ k ih =>
    intro attempts calls s hk hok
    by_cases hlt : attempts < maxAttempts
    · cases hu' : u attempts with
      | none =>
        rw [createSessionGo.eq_def] at hok
        simp [hlt, hu'] at hok
      | some username =>
        cases hp' : p attempts with
        | none =>
          rw [createSessionGo.eq_def] at hok
          simp [hlt, hu', hp'] at hok
        | some pw =>
          cases hr : resp attempts with
          | ok data =>
            have hE := createSessionGo_ok_step now u p resp st attempts calls
              username pw data hlt hu' hp' hr
            rw [hE] at hok
            obtain rfl : mkLoginSession now username data = s := by
              simpa using hok
            refine ⟨⟨calls + 1, hE⟩, attempts, data, le_refl _, hlt, hr, hu', rfl⟩
          | clientError detail =>
            by_cases hlt2 : attempts < maxAttempts - 1
            · have hE := createSessionGo_retry_step now u p resp st attempts
                calls hlt2 (by simp [hu']) (by simp [hp'])
                (by simp [retryableFailure, hr])
              rw [hE] at hok
              obtain ⟨h1, i, data, hi1, hi2, h5, h6, h7⟩ :=
                ih (attempts + 1) (calls + 1) s (by omega) hok
              rw [hE]
              exact ⟨h1, i, data, by omega, hi2, h5, h6, h7⟩
            · rw [createSessionGo.eq_def] at hok
              simp [hlt, hu', hp', hr, hlt2] at hok
          | networkFailure =>
            by_cases hlt2 : attempts < maxAttempts - 1
            · have hE := createSessionGo_retry_step now u p resp st attempts
                calls hlt2 (by simp [hu']) (by simp [hp'])
                (by simp [retryableFailure, hr])
              rw [hE] at hok
              obtain ⟨h1, i, data, hi1, hi2, h5, h6, h7⟩ :=
                ih (attempts + 1) (calls + 1) s (by omega) hok
              rw [hE]
              exact ⟨h1, i, data, by omega, hi2, h5, h6, h7⟩
            · rw [createSessionGo.eq_def] at hok
              simp [hlt, hu', hp', hr, hlt2] at hok
    · rw [createSessionGo.eq_def] at hok
      simp [hlt] at hok

/-- C5 counterexample: with all three attempts answering the prompts and
the server rejecting the credentials three times, `createSession` makes
exactly 3 server calls but fails with the last attempt's own
invalid-credentials error, not with the maximum-attempts error — the
`"Maximum login attempts exceeded"` throw after the loop is
unreachable. -/
theorem createSession_max_attempts_counterexample :
    (createSession 0 (fun _ => some "user") (fun _ => some "pw")
        (fun _ => .clientError none) none).serverCalls = 3 ∧
    (createSession 0 (fun _ => some "user") (fun _ => some "pw")
        (fun _ => .clientError none) none).result =
      .error (.loginFailed "Invalid credentials") ∧
    (createSession 0 (fun _ => some "user") (fun _ => some "pw")
        (fun _ => .clientError none) none).result ≠
      .error .maxAttemptsExceeded := by
  refine ⟨?_, ?_, ?_⟩ <;>
    simp [createSession, createSessionGo, maxAttempts, jsOr]

/-- C5 amended: `createSession` performs at most 3 login calls.  With the
prompts answered on every attempt and retryable failures (invalid
credentials or network failure) on attempts 0 and 1: a success on attempt
2 returns the successful session having made exactly 3 server calls,
while a third retryable failure makes exactly 3 server calls and fails
with that final attempt's own error (the server's invalid-credentials
message or the network error) — the code's `MaxAttemptsExceeded` error
after the loop is unreachable. -/
theorem createSession_retry_contract (now : Nat)
    (u p : Nat → Option String) (resp : Nat → LoginResponse)
    (st : Option StoreData)
    (hu : ∀ i, i < maxAttempts → (u i).isSome)
    (hp : ∀ i, i < maxAttempts → (p i).isSome)
    (h0 : retryableFailure (resp 0) = true)
    (h1 : retryableFailure (resp 1) = true) :
    (∀ data, resp 2 = .ok data →
      (∃ s, (createSession now u p resp st).result = .ok s) ∧
      (createSession now u p resp st).serverCalls = 3) ∧
    (retryableFailure (resp 2) = true →
      (createSession now u p resp st).result =
        .error (failureError (resp 2)) ∧
      (createSession now u p resp st).serverCalls = 3) := by
  have hm : maxAttempts - 1 = 2 := by simp [maxAttempts]
  have hstep0 := createSessionGo_retry_step now u p resp st 0 0
    (by simp [maxAttempts]) (hu 0 (by simp [maxAttempts]))
    (hp 0 (by simp [maxAttempts])) h0
  have hstep1 := createSessionGo_retry_step now u p resp st 1 1
    (by simp [maxAttempts]) (hu 1 (by simp [maxAttempts]))
    (hp 1 (by simp [maxAttempts])) h1
  constructor
  · intro data hdata
    obtain ⟨username, hu2⟩ := Option.isSome_iff_exists.mp
      (hu 2 (by simp [maxAttempts]))
    obtain ⟨pw, hp2⟩ := Option.isSome_iff_exists.mp
      (hp 2 (by simp [maxAttempts]))
    have hE := createSessionGo_ok_step now u p resp st 2 2 username pw data
      (by simp [maxAttempts]) hu2 hp2 hdata
    rw [createSession, hstep0, hstep1, hE]
    exact ⟨⟨mkLoginSession now username data, rfl⟩, rfl⟩
  · intro h2
    have hE := createSessionGo_final_fail now u p resp st 2
      (by rw [hm]; exact hu 2 (by simp [maxAttempts]))
      (by rw [hm]; exact hp 2 (by simp [maxAttempts]))
      (by rw [hm]; exact h2)
    rw [hm] at hE
    rw [createSession, hstep0, hstep1, hE]
    exact ⟨rfl, rfl⟩

/-- C5 witness: two network failures followed by a success yield a
session after exactly 3 server calls. -/
theorem createSession_retry_contract_witness :
    (∃ s, (createSession 7 (fun _ => some "bob") (fun _ => some "pw")
      (fun i => if i < 2 then .networkFailure else .ok sampleResponse)
      none).result = .ok s) ∧
    (createSession 7 (fun _ => some "bob") (fun _ => some "pw")
      (fun i => if i < 2 then .networkFailure else .ok sampleResponse)
      none).serverCalls = 3 :=
  (createSession_retry_contract 7 (fun _ => some "bob") (fun _ => some "pw")
      (fun i => if i < 2 then .networkFailure else .ok sampleResponse) none
      (fun _ _ => rfl) (fun _ _ => rfl) rfl rfl).1
    sampleResponse rfl

/-- C6: every successful interactive login returns a record whose
`expiresAt` is the call-time clock plus the fixed 10-minute TTL, persists
it as the sole entry of the store (replacing any prior content), emits no
event, and the record was built by `mkLoginSession` from the entered
username of the successful attempt (so its `id` is that username) and the
server response, with `refreshToken` falling back to the empty string
when the server omits one. -/
theorem createSession_success_record (now : Nat)
    (u p : Nat → Option String) (resp : Nat → LoginResponse)
    (st : Option StoreData) (s : ContinueAuthenticationSession)
    (h : (createSession now u p resp st).result = .ok s) :
    s.expiresAt = now + ACCESS_TOKEN_TTL_MINUTES * 60 * 1000 ∧
    (createSession now u p resp st).storage = some (.parsable [s]) ∧
    (createSession now u p resp st).events = [] ∧
    ∃ i data, i < maxAttempts ∧ resp i = .ok data ∧ u i = some s.id ∧
      s = mkLoginSession now s.id data ∧
      (data.tokens.refreshToken = none → s.refreshToken = "") := by
  obtain ⟨⟨n, hrec⟩, i, data, hi1, hi2, hr, hui, hs⟩ :=
    createSessionGo_ok_shape now u p resp st maxAttempts 0 0 s
      (by omega) h
  refine ⟨by rw [hs]; rfl, ?_, ?_, i, data, hi2, hr, hui, hs, ?_⟩
  · show (createSessionGo now u p resp st 0 0).storage = _
    rw [hrec]
  · show (createSessionGo now u p resp st 0 0).events = _
    rw [hrec]
  · intro hnone
    rw [hs]
    simp [mkLoginSession, hnone, jsOr]

/-- C6 witness: a first-attempt success stores exactly the built record
(whose id is the entered username) and emits no event. -/
theorem createSession_success_record_witness :
    (createSession 7 (fun _ => some "bob") (fun _ => some "pw")
        (fun _ => .ok sampleResponse) none).storage =
      some (.parsable [mkLoginSession 7 "bob" sampleResponse]) ∧
    (createSession 7 (fun _ => some "bob") (fun _ => some "pw")
        (fun _ => .ok sampleResponse) none).events = [] := by
  have h := createSession_success_record 7 (fun _ => some "bob")
    (fun _ => some "pw") (fun _ => .ok sampleResponse) none
    (mkLoginSession 7 "bob" sampleResponse)
    (by simp [createSession, createSessionGo, maxAttempts])
  exact ⟨h.2.1, h.2.2.1⟩

/-- C9 counterexample: unparsable persisted data is not treated as an
empty list by `getSessions`; the parse error is surfaced to the reader. -/
theorem getSessions_corrupt_counterexample :
    getSessions (some StoreData.corrupt) = .error () ∧
    getSessions (some StoreData.corrupt) ≠
      .ok ([] : List ContinueAuthenticationSession) := by
  refine ⟨rfl, ?_⟩
  intro h
  simp [getSessions] at h

/-- C9 amended: loading the session list returns the empty list when
nothing is stored under the namespace key; persisted data that cannot be
parsed makes the load fail with the parse error, which is surfaced to the
reader (each caller then decides how to handle it) rather than being
treated as an empty list. -/
theorem getSessions_contract :
    getSessions none = .ok ([] : List ContinueAuthenticationSession) ∧
    (∀ l, getSessions (some (.parsable l)) = .ok l) ∧
    getSessions (some .corrupt) =
      (.error () : Except Unit (List ContinueAuthenticationSession)) :=
  ⟨rfl, fun _ => rfl, rfl⟩

/-- C10: `getUserToken` requests the session with `createIfNone: false`
(never triggering interactive login); it returns the existing session's
access token when a session exists, otherwise the configured `userToken`
setting when that is non-empty, and throws the "no authentication token
found" error exactly when neither is present. -/
theorem getUserToken_contract (s : ContinueAuthenticationSession)
    (t : String) (setting : Option String) :
    getUserTokenCreateIfNone = false ∧
    getUserToken (some s) setting = .ok s.accessToken ∧
    (t ≠ "" → getUserToken none (some t) = .ok t) ∧
    getUserToken none none = .error "No authentication token found" ∧
    getUserToken none (some "") = .error "No authentication token found" := by
  refine ⟨rfl, rfl, ?_, rfl, rfl⟩
  intro ht
  simp [getUserToken, ht]

/-- C10 witness: with no session and a non-empty configured token, that
token is returned. -/
theorem getUserToken_contract_witness :
    getUserToken none (some "cfg") = .ok "cfg" :=
  (getUserToken_contract aliceSession "cfg" none).2.2.1 (by decide)

/-- Remark on the older near-duplicate provider: its `removeSession` on
an id that is not in the stored list is not a no-op — `findIndex` returns
`-1`, `splice(-1, 1)` removes the *last* stored record, and the shortened
list is persisted (no event fires). -/
theorem Stub.removeSession_unknown_drops_last
    (sessions : List Stub.StubSession) (sessionId : String)
    (habsent : sessions.findIdx? (fun s => s.id == sessionId) = none) :
    Stub.removeSession sessions sessionId = (sessions.dropLast, none) := by
  simp [Stub.removeSession, habsent]

/-- Remark on the older near-duplicate provider: its sweep loop drops a
session whose refresh fails from the rebuilt list (while still having
issued the refresh call), instead of keeping the original record. -/
theorem Stub.processSessions_drops_failed
    (f : String → Option Stub.StubTokens) (s : Stub.StubSession)
    (rest : List Stub.StubSession) (hfail : f s.refreshToken = none) :
    Stub.processSessions f (s :: rest) =
      ((Stub.processSessions f rest).1,
        s.refreshToken :: (Stub.processSessions f rest).2) := by
  simp [Stub.processSessions, hfail]

end LdapAuth

